import Mathlib

/-!
Shallow embedding of the background timer core of the notion-time-tracker
extension (src/src/background/service-worker.ts, src/src/popup/lib/types.ts,
src/src/popup/lib/stores.ts, and the time-formatting helpers).

The message handlers of the service worker are modelled as pure functions of:
  * the settings blob currently in storage (`Option Settings`, since
    `getSettings` resolves to the stored object or `null`),
  * the persisted `TimerState` (`getTimerState` falls back to
    `DEFAULT_TIMER_STATE`, so handlers always see a total value),
  * the remote Notion session store, modelled as a list of session records,
  * an oracle giving the outcome of the remote create/close calls
    (`createWorkSession` resolves with the new page id or throws;
    `endWorkSession` resolves with unit or throws).
Each handler returns the value it resolves with or the error it throws, the
timer state left in storage afterwards (`saveTimerState` runs only after the
remote call succeeded), the remote store afterwards, and whether any remote
call was attempted.
-/

/-- Timer state record, following the `TimerState` interface of
`src/popup/lib/types.ts`. Nullable fields become `Option`; millisecond
timestamps and totals are JS numbers, modelled as `Int`. -/
structure TimerState where
  isRunning : Bool
  isPaused : Bool
  taskId : Option String
  taskTitle : String
  currentSessionId : Option String
  sessionStartTime : Option Int
  previousTotal : Int
deriving Repr, DecidableEq

/-- DEFAULT_TIMER_STATE from `src/popup/lib/types.ts`. -/
def DEFAULT_TIMER_STATE : TimerState :=
  { isRunning := false
    isPaused := false
    taskId := none
    taskTitle := ""
    currentSessionId := none
    sessionStartTime := none
    previousTotal := 0 }

/-- Theme values from `src/popup/lib/types.ts`. -/
inductive Theme where
  | light
  | dark
  | system
deriving Repr, DecidableEq

/-- Filter property types of `TaskFilter` in `src/popup/lib/types.ts`. -/
inductive FilterPropertyType where
  | status
  | checkbox
deriving Repr, DecidableEq

/-- TaskFilter from `src/popup/lib/types.ts`; `value : string | boolean`
becomes a sum. -/
structure TaskFilter where
  id : String
  propertyId : String
  propertyName : String
  propertyType : FilterPropertyType
  value : String ⊕ Bool
deriving Repr, DecidableEq

/-- Settings bundle from `src/popup/lib/types.ts`. -/
structure Settings where
  apiKey : String
  tasksDataSourceId : String
  tasksDataSourceName : String
  statusPropertyId : String
  statusPropertyName : String
  sessionsPropertyId : String
  sessionsPropertyName : String
  workSessionsDataSourceId : String
  workSessionsDataSourceName : String
  startDatePropertyId : String
  startDatePropertyName : String
  endDatePropertyId : String
  endDatePropertyName : String
  theme : Theme
  filters : List TaskFilter
deriving Repr, DecidableEq

/-- DEFAULT_SETTINGS from `src/popup/lib/types.ts`: every id and name empty. -/
def DEFAULT_SETTINGS : Settings :=
  { apiKey := ""
    tasksDataSourceId := ""
    tasksDataSourceName := ""
    statusPropertyId := ""
    statusPropertyName := ""
    sessionsPropertyId := ""
    sessionsPropertyName := ""
    workSessionsDataSourceId := ""
    workSessionsDataSourceName := ""
    startDatePropertyId := ""
    startDatePropertyName := ""
    endDatePropertyId := ""
    endDatePropertyName := ""
    theme := Theme.system
    filters := [] }

/-- StartTimerPayload from `src/popup/lib/types.ts`. -/
structure StartTimerPayload where
  taskId : String
  taskTitle : String
  previousTotal : Int
deriving Repr, DecidableEq

/-- A remote work-session record (a Notion page in the work-sessions
database): its page id, the task it relates to, and whether its
end-date property has been written (`endWorkSession` patches the end date,
after which the session is closed). -/
structure RemoteSession where
  id : String
  taskId : String
  closed : Bool
deriving Repr, DecidableEq

/-- Outcome oracle for the remote Notion calls a single handler invocation
may perform: `create` is the outcome of `createWorkSession` (the new page id,
or a thrown error), `close` the outcome of `endWorkSession`. -/
structure RemoteOracle where
  create : Except String String
  close : Except String Unit
deriving Repr

/-- Effect of a successful `createWorkSession` on the remote store: a new
open session page related to the task is appended. -/
def createWorkSession (sessionId taskId : String) (rs : List RemoteSession) :
    List RemoteSession :=
  rs ++ [{ id := sessionId, taskId := taskId, closed := false }]

/-- Effect of a successful `endWorkSession sessionId` on the remote store:
the page with that id gets its end date set, i.e. becomes closed. -/
def endWorkSession (sessionId : String) (rs : List RemoteSession) :
    List RemoteSession :=
  rs.map fun s => if s.id = sessionId then { s with closed := true } else s

/-- Result of one handler invocation: the promise outcome (`.error` models a
thrown error, caught by the message listener), the timer state persisted in
storage after the call, the remote store after the call, and whether a
remote call was attempted. -/
structure StepResult where
  resp : Except String TimerState
  persisted : TimerState
  remote : List RemoteSession
  attempted : Bool
deriving Repr

/-- A handler branch that neither throws, nor writes storage, nor touches
the remote store, and resolves with the current state. -/
def StepResult.noop (st : TimerState) (rs : List RemoteSession) : StepResult :=
  { resp := Except.ok st, persisted := st, remote := rs, attempted := false }

/-- handleStartTimer from `service-worker.ts`: throws if no settings object
is stored; otherwise calls `createWorkSession` (so any remote failure
propagates before storage is touched) and only then builds and saves the new
running state. No check of the previous state and no close of a previously
open session. -/
def handleStartTimer (settings : Option Settings) (o : RemoteOracle)
    (now : Int) (payload : StartTimerPayload) (st : TimerState)
    (rs : List RemoteSession) : StepResult :=
  match settings with
  | none =>
      { resp := Except.error "Settings not configured"
        persisted := st, remote := rs, attempted := false }
  | some _ =>
      match o.create with
      | Except.error e =>
          { resp := Except.error e, persisted := st, remote := rs
            attempted := true }
      | Except.ok sessionId =>
          let state : TimerState :=
            { isRunning := true
              isPaused := false
              taskId := some payload.taskId
              taskTitle := payload.taskTitle
              currentSessionId := some sessionId
              sessionStartTime := some now
              previousTotal := payload.previousTotal }
          { resp := Except.ok state
            persisted := state
            remote := createWorkSession sessionId payload.taskId rs
            attempted := true }

/-- handlePauseTimer from `service-worker.ts`. The guard
`!settings || !state.isRunning || !state.currentSessionId` returns the
current state unchanged (JS falsiness: a `null` or empty-string session id
fails the guard). Otherwise `endWorkSession` runs first, then the elapsed
time `state.sessionStartTime ? Date.now() - state.sessionStartTime : 0` is
added (a zero timestamp is falsy and yields 0) and the paused state saved. -/
def handlePauseTimer (settings : Option Settings) (o : RemoteOracle)
    (now : Int) (st : TimerState) (rs : List RemoteSession) : StepResult :=
  match settings, st.currentSessionId with
  | none, _ => StepResult.noop st rs
  | some _, none => StepResult.noop st rs
  | some _, some sessionId =>
      if st.isRunning = false ∨ sessionId = "" then StepResult.noop st rs
      else
        match o.close with
        | Except.error e =>
            { resp := Except.error e, persisted := st, remote := rs
              attempted := true }
        | Except.ok _ =>
            let sessionElapsed : Int :=
              match st.sessionStartTime with
              | none => 0
              | some t => if t = 0 then 0 else now - t
            let newState : TimerState :=
              { st with
                  isRunning := false
                  isPaused := true
                  currentSessionId := none
                  sessionStartTime := none
                  previousTotal := st.previousTotal + sessionElapsed }
            { resp := Except.ok newState
              persisted := newState
              remote := endWorkSession sessionId rs
              attempted := true }

/-- handleResumeTimer from `service-worker.ts`. The guard
`!settings || !state.isPaused || !state.taskId` returns the current state
unchanged; otherwise a fresh session is created remotely and the running
state (with the new session id and start time) is saved. -/
def handleResumeTimer (settings : Option Settings) (o : RemoteOracle)
    (now : Int) (st : TimerState) (rs : List RemoteSession) : StepResult :=
  match settings, st.taskId with
  | none, _ => StepResult.noop st rs
  | some _, none => StepResult.noop st rs
  | some _, some taskId =>
      if st.isPaused = false ∨ taskId = "" then StepResult.noop st rs
      else
        match o.create with
        | Except.error e =>
            { resp := Except.error e, persisted := st, remote := rs
              attempted := true }
        | Except.ok sessionId =>
            let newState : TimerState :=
              { st with
                  isRunning := true
                  isPaused := false
                  currentSessionId := some sessionId
                  sessionStartTime := some now }
            { resp := Except.ok newState
              persisted := newState
              remote := createWorkSession sessionId taskId rs
              attempted := true }

/-- handleStopTimer from `service-worker.ts`. Without a settings object it
still saves `DEFAULT_TIMER_STATE` and resolves with it (no remote call).
With settings, it closes the open session only when
`state.isRunning && state.currentSessionId` is truthy, then saves the
default state. -/
def handleStopTimer (settings : Option Settings) (o : RemoteOracle)
    (st : TimerState) (rs : List RemoteSession) : StepResult :=
  match settings with
  | none =>
      { resp := Except.ok DEFAULT_TIMER_STATE
        persisted := DEFAULT_TIMER_STATE, remote := rs, attempted := false }
  | some _ =>
      match st.currentSessionId with
      | some sessionId =>
          if st.isRunning = true ∧ sessionId ≠ "" then
            match o.close with
            | Except.error e =>
                { resp := Except.error e, persisted := st, remote := rs
                  attempted := true }
            | Except.ok _ =>
                { resp := Except.ok DEFAULT_TIMER_STATE
                  persisted := DEFAULT_TIMER_STATE
                  remote := endWorkSession sessionId rs
                  attempted := true }
          else
            { resp := Except.ok DEFAULT_TIMER_STATE
              persisted := DEFAULT_TIMER_STATE, remote := rs
              attempted := false }
      | none =>
          { resp := Except.ok DEFAULT_TIMER_STATE
            persisted := DEFAULT_TIMER_STATE, remote := rs, attempted := false }

/-- The five message kinds of the client-proxy protocol. -/
inductive TimerOp where
  | startTimer (payload : StartTimerPayload)
  | pauseTimer
  | resumeTimer
  | stopTimer
  | getState
deriving Repr, DecidableEq

/-- Dispatch of the message listener's switch over the message type.
`GET_STATE` reads the stored state and mutates nothing. -/
def step (settings : Option Settings) (o : RemoteOracle) (now : Int)
    (op : TimerOp) (st : TimerState) (rs : List RemoteSession) : StepResult :=
  match op with
  | TimerOp.startTimer payload => handleStartTimer settings o now payload st rs
  | TimerOp.pauseTimer => handlePauseTimer settings o now st rs
  | TimerOp.resumeTimer => handleResumeTimer settings o now st rs
  | TimerOp.stopTimer => handleStopTimer settings o st rs
  | TimerOp.getState => StepResult.noop st rs

/-- Wire-level response of the message listener: either the value the
handler resolved with, or the error descriptor object built in the listener's
catch block. Both are delivered via `sendResponse`, i.e. both RESOLVE the
caller's promise. -/
inductive WireResponse where
  | state (st : TimerState)
  | errDesc (msg : String)
deriving Repr, DecidableEq

/-- The listener's try/catch: a thrown handler error is caught and turned
into the `error` descriptor object passed to `sendResponse`. -/
def listenerResponse (r : StepResult) : WireResponse :=
  match r.resp with
  | Except.ok st => WireResponse.state st
  | Except.error e => WireResponse.errDesc e

/-- sendMessage from `src/popup/lib/stores.ts`: the returned promise rejects
exactly when `chrome.runtime.lastError` is set (a transport failure,
modelled by the first argument); otherwise it resolves with whatever the
listener responded. -/
def sendMessage (transportFailure : Option String) (w : WireResponse) :
    Except String WireResponse :=
  match transportFailure with
  | some e => Except.error e
  | none => Except.ok w

/-- Assumption on the remote store for trace semantics: when the Notion
create call succeeds, the page id it returns is a genuine fresh id — a
non-empty string not already used by a session record. -/
def ValidOracle (o : RemoteOracle) (rs : List RemoteSession) : Prop :=
  match o.create with
  | Except.ok sessionId =>
      sessionId ≠ "" ∧ ∀ s ∈ rs, s.id ≠ sessionId
  | Except.error _ => True

instance (o : RemoteOracle) (rs : List RemoteSession) :
    Decidable (ValidOracle o rs) := by
  unfold ValidOracle
  match o.create with
  | Except.ok sessionId => exact inferInstance
  | Except.error _ => exact inferInstance

/-- States of the storage/remote pair reachable from the freshly-installed
state by any sequence of handler invocations, with arbitrary settings
content at each call (the settings blob is written by the UI, not by the
handlers) and any remote outcomes from a valid remote store. -/
inductive Reachable : TimerState → List RemoteSession → Prop
  | init : Reachable DEFAULT_TIMER_STATE []
  | step (settings : Option Settings) (o : RemoteOracle) (now : Int)
      (op : TimerOp) (st : TimerState) (rs : List RemoteSession) :
      Reachable st rs → ValidOracle o rs →
      Reachable (step settings o now op st rs).persisted
        (step settings o now op st rs).remote

/-- Discipline for start calls: the operation is a start only from the idle
phase (the caller issues stop first when switching tasks). -/
def StartOnlyFromIdle (op : TimerOp) (st : TimerState) : Prop :=
  match op with
  | TimerOp.startTimer _ => st.isRunning = false ∧ st.isPaused = false
  | _ => True

/-- Reachability under a fixed, present settings bundle, where start is only
invoked while idle. -/
inductive GoodReachable (s : Settings) : TimerState → List RemoteSession → Prop
  | init : GoodReachable s DEFAULT_TIMER_STATE []
  | step (o : RemoteOracle) (now : Int) (op : TimerOp) (st : TimerState)
      (rs : List RemoteSession) :
      GoodReachable s st rs → ValidOracle o rs → StartOnlyFromIdle op st →
      GoodReachable s (step (some s) o now op st rs).persisted
        (step (some s) o now op st rs).remote

/-- Local field invariant of the persisted timer state. -/
def TimerStateInv (st : TimerState) : Prop :=
  (st.currentSessionId.isSome ↔ st.sessionStartTime.isSome) ∧
  (st.isRunning = false → st.currentSessionId = none ∧ st.sessionStartTime = none) ∧
  (st.isRunning = true → st.currentSessionId.isSome) ∧
  (st.taskId = none ↔ (st.isRunning = false ∧ st.isPaused = false)) ∧
  (st.isRunning = false ∨ st.isPaused = false)

/-- Open (active) session records of the remote store: start written, end
not yet written. -/
def openSessions (rs : List RemoteSession) : List RemoteSession :=
  rs.filter fun s => s.closed = false

/-- Correspondence between the locally stored session id and the remote
store: the open remote sessions are exactly the one the state points at. -/
def RemoteInv (st : TimerState) (rs : List RemoteSession) : Prop :=
  match st.currentSessionId with
  | none => openSessions rs = []
  | some sessionId =>
      sessionId ≠ "" ∧
      ∃ t, openSessions rs = [{ id := sessionId, taskId := t, closed := false }]

/-- padStart of JS strings, specialised to how `padZero` uses it: prepend
copies of the pad character until the target length is reached. -/
def padStart (s : String) (n : Nat) (c : Char) : String :=
  String.mk (List.replicate (n - s.length) c) ++ s

/-- padZero from the shared time helpers: `num.toString().padStart(2, '0')`. -/
def padZero (num : Nat) : String :=
  padStart (Nat.repr num) 2 '0'

/-- formatTime from the shared time helpers: milliseconds to `H:MM:SS`. -/
def formatTime (ms : Nat) : String :=
  let totalSeconds := ms / 1000
  let hours := totalSeconds / 3600
  let minutes := (totalSeconds % 3600) / 60
  let seconds := totalSeconds % 60
  padZero hours ++ ":" ++ padZero minutes ++ ":" ++ padZero seconds

theorem openSessions_nil : openSessions [] = [] := rfl

theorem openSessions_append (rs l : List RemoteSession) :
    openSessions (rs ++ l) = openSessions rs ++ openSessions l := by
  simp [openSessions, List.filter_append]

theorem openSessions_createWorkSession (sessionId taskId : String)
    (rs : List RemoteSession) :
    openSessions (createWorkSession sessionId taskId rs) =
      openSessions rs ++ [{ id := sessionId, taskId := taskId, closed := false }] := by
  simp [createWorkSession, openSessions_append, openSessions, List.filter]

theorem openSessions_endWorkSession (sessionId : String)
    (rs : List RemoteSession) :
    openSessions (endWorkSession sessionId rs) =
      (openSessions rs).filter fun s => s.id ≠ sessionId := by
  induction rs with
  | nil => rfl
  | cons a l ih =>
    by_cases hid : a.id = sessionId
    · by_cases hc : a.closed
      · simp [endWorkSession, openSessions, List.filter_cons, hid, hc] at ih ⊢
        exact ih
      · simp only [Bool.not_eq_true] at hc
        simp [endWorkSession, openSessions, List.filter_cons, hid, hc] at ih ⊢
        exact ih
    · by_cases hc : a.closed
      · simp [endWorkSession, openSessions, List.filter_cons, hid, hc] at ih ⊢
        exact ih
      · simp only [Bool.not_eq_true] at hc
        simp [endWorkSession, openSessions, List.filter_cons, hid, hc] at ih ⊢
        exact ih

theorem timerStateInv_default : TimerStateInv DEFAULT_TIMER_STATE := by
  simp [TimerStateInv, DEFAULT_TIMER_STATE]

/-- Preservation of the local field invariant by every handler call. -/
theorem step_preserves_timerStateInv (settings : Option Settings)
    (o : RemoteOracle) (now : Int) (op : TimerOp) (st : TimerState)
    (rs : List RemoteSession) (ih : TimerStateInv st) :
    TimerStateInv (step settings o now op st rs).persisted := by
  cases op with
  | getState => exact ih
  | startTimer p =>
    cases settings with
    | none => exact ih
    | some s =>
      cases hc : o.create with
      | error e => simpa [step, handleStartTimer, hc] using ih
      | ok sessionId => simp [step, handleStartTimer, hc, TimerStateInv]
  | pauseTimer =>
    cases settings with
    | none => exact ih
    | some s =>
      cases hsid : st.currentSessionId with
      | none => simpa [step, handlePauseTimer, hsid] using ih
      | some sessionId =>
        by_cases hg : st.isRunning = false ∨ sessionId = ""
        · simpa [step, handlePauseTimer, hsid, hg, StepResult.noop] using ih
        · cases hcl : o.close with
          | error e => simpa [step, handlePauseTimer, hsid, hg, hcl] using ih
          | ok u =>
            have hrun : st.isRunning = true := by
              rcases Bool.eq_false_or_eq_true st.isRunning with h | h
              · exact h
              · exact absurd (Or.inl h) hg
            have htask : ¬ st.taskId = none := by
              intro hnone
              have hfalse := (ih.2.2.2.1.mp hnone).1
              rw [hrun] at hfalse
              simp at hfalse
            simp [step, handlePauseTimer, hsid, hg, hcl, TimerStateInv, htask]
  | resumeTimer =>
    cases settings with
    | none => exact ih
    | some s =>
      cases htid : st.taskId with
      | none => simpa [step, handleResumeTimer, htid] using ih
      | some taskId =>
        by_cases hg : st.isPaused = false ∨ taskId = ""
        · simpa [step, handleResumeTimer, htid, hg, StepResult.noop] using ih
        · cases hc : o.create with
          | error e => simpa [step, handleResumeTimer, htid, hg, hc] using ih
          | ok sessionId =>
            simp [step, handleResumeTimer, htid, hg, hc, TimerStateInv]
  | stopTimer =>
    cases settings with
    | none => simpa [step, handleStopTimer] using timerStateInv_default
    | some s =>
      cases hsid : st.currentSessionId with
      | none => simpa [step, handleStopTimer, hsid] using timerStateInv_default
      | some sessionId =>
        by_cases hg : st.isRunning = true ∧ sessionId ≠ ""
        · cases hcl : o.close with
          | error e => simpa [step, handleStopTimer, hsid, hg, hcl] using ih
          | ok u =>
            simpa [step, handleStopTimer, hsid, hg, hcl] using timerStateInv_default
        · simpa [step, handleStopTimer, hsid, hg] using timerStateInv_default

/-- Every reachable persisted state satisfies the local field invariant. -/
theorem reachable_timerStateInv (st : TimerState) (rs : List RemoteSession)
    (h : Reachable st rs) : TimerStateInv st := by
  induction h with
  | init => exact timerStateInv_default
  | step settings o now op st rs hr hv ih =>
    exact step_preserves_timerStateInv settings o now op st rs ih

/-- Along a trace with fixed present settings in which start is only issued
from idle, every reachable pair satisfies both the local field invariant and
the local/remote session correspondence. -/
theorem goodReachable_inv (s : Settings) (st : TimerState)
    (rs : List RemoteSession) (h : GoodReachable s st rs) :
    TimerStateInv st ∧ RemoteInv st rs := by
  induction h with
  | init =>
    exact ⟨timerStateInv_default, by simp [RemoteInv, DEFAULT_TIMER_STATE, openSessions]⟩
  | step o now op st rs hr hv hso ih =>
    refine ⟨step_preserves_timerStateInv (some s) o now op st rs ih.1, ?_⟩
    cases op with
    | getState => exact ih.2
    | startTimer p =>
      obtain ⟨hrun, hpau⟩ := hso
      have hsid : st.currentSessionId = none := (ih.1.2.1 hrun).1
      have hopen : openSessions rs = [] := by
        have h2 := ih.2
        simp only [RemoteInv, hsid] at h2
        exact h2
      cases hc : o.create with
      | error e =>
        simp only [step, handleStartTimer, hc]
        exact ih.2
      | ok sessionId =>
        have hne : sessionId ≠ "" := by
          simp only [ValidOracle, hc] at hv
          exact hv.1
        simp only [step, handleStartTimer, hc]
        refine ⟨hne, p.taskId, ?_⟩
        rw [openSessions_createWorkSession, hopen]
        rfl
    | pauseTimer =>
      cases hsid : st.currentSessionId with
      | none =>
        simp only [step, handlePauseTimer, hsid]
        exact ih.2
      | some sessionId =>
        have h2 := ih.2
        simp only [RemoteInv, hsid] at h2
        obtain ⟨hne, t, hopen⟩ := h2
        have hrun : st.isRunning = true := by
          rcases Bool.eq_false_or_eq_true st.isRunning with hb | hb
          · exact hb
          · have := (ih.1.2.1 hb).1
            rw [hsid] at this
            simp at this
        have hg : ¬ (st.isRunning = false ∨ sessionId = "") := by
          rw [hrun]
          simp [hne]
        cases hcl : o.close with
        | error e =>
          simp only [step, handlePauseTimer, hsid, if_neg hg, hcl]
          exact ih.2
        | ok u =>
          simp only [step, handlePauseTimer, hsid, if_neg hg, hcl]
          show openSessions (endWorkSession sessionId rs) = []
          rw [openSessions_endWorkSession, hopen]
          simp
    | resumeTimer =>
      cases htid : st.taskId with
      | none =>
        simp only [step, handleResumeTimer, htid]
        exact ih.2
      | some taskId =>
        by_cases hg : st.isPaused = false ∨ taskId = ""
        · simp only [step, handleResumeTimer, htid, if_pos hg]
          exact ih.2
        · have hpau : st.isPaused = true := by
            rcases Bool.eq_false_or_eq_true st.isPaused with hb | hb
            · exact hb
            · exact absurd (Or.inl hb) hg
          have hrun : st.isRunning = false := by
            rcases ih.1.2.2.2.2 with hb | hb
            · exact hb
            · rw [hpau] at hb
              simp at hb
          have hsid : st.currentSessionId = none := (ih.1.2.1 hrun).1
          have hopen : openSessions rs = [] := by
            have h2 := ih.2
            simp only [RemoteInv, hsid] at h2
            exact h2
          cases hc : o.create with
          | error e =>
            simp only [step, handleResumeTimer, htid, if_neg hg, hc]
            exact ih.2
          | ok sessionId =>
            have hne : sessionId ≠ "" := by
              simp only [ValidOracle, hc] at hv
              exact hv.1
            simp only [step, handleResumeTimer, htid, if_neg hg, hc]
            refine ⟨hne, taskId, ?_⟩
            rw [openSessions_createWorkSession, hopen]
            rfl
    | stopTimer =>
      cases hsid : st.currentSessionId with
      | none =>
        have hopen : openSessions rs = [] := by
          have h2 := ih.2
          simp only [RemoteInv, hsid] at h2
          exact h2
        simp only [step, handleStopTimer, hsid]
        exact hopen
      | some sessionId =>
        have h2 := ih.2
        simp only [RemoteInv, hsid] at h2
        obtain ⟨hne, t, hopen⟩ := h2
        have hrun : st.isRunning = true := by
          rcases Bool.eq_false_or_eq_true st.isRunning with hb | hb
          · exact hb
          · have := (ih.1.2.1 hb).1
            rw [hsid] at this
            simp at this
        have hg : st.isRunning = true ∧ sessionId ≠ "" := ⟨hrun, hne⟩
        cases hcl : o.close with
        | error e =>
          simp only [step, handleStopTimer, hsid, if_pos hg, hcl]
          exact ih.2
        | ok u =>
          simp only [step, handleStopTimer, hsid, if_pos hg, hcl]
          show openSessions (endWorkSession sessionId rs) = []
          rw [openSessions_endWorkSession, hopen]
          simp

/-- Claim C2: for every TimerState reachable from the default state by any
sequence of start/pause/resume/stop/getState transitions, `currentSessionId`
and `sessionStartTime` are both present or both absent; both are absent
whenever the phase is not running (isRunning false); and `taskId` is absent
iff the phase is idle (neither running nor paused). -/
theorem claim_C2_field_invariant (st : TimerState) (rs : List RemoteSession)
    (h : Reachable st rs) :
    (st.currentSessionId.isSome ↔ st.sessionStartTime.isSome) ∧
    (st.isRunning = false →
      st.currentSessionId = none ∧ st.sessionStartTime = none) ∧
    (st.taskId = none ↔ (st.isRunning = false ∧ st.isPaused = false)) := by
  have hi := reachable_timerStateInv st rs h
  exact ⟨hi.1, hi.2.1, hi.2.2.2.1⟩

/-- Witness for C2: the invariant instantiated at the reachable default
state. -/
theorem claim_C2_witness :
    (DEFAULT_TIMER_STATE.currentSessionId.isSome ↔
      DEFAULT_TIMER_STATE.sessionStartTime.isSome) ∧
    (DEFAULT_TIMER_STATE.isRunning = false →
      DEFAULT_TIMER_STATE.currentSessionId = none ∧
      DEFAULT_TIMER_STATE.sessionStartTime = none) ∧
    (DEFAULT_TIMER_STATE.taskId = none ↔
      (DEFAULT_TIMER_STATE.isRunning = false ∧
        DEFAULT_TIMER_STATE.isPaused = false)) :=
  claim_C2_field_invariant DEFAULT_TIMER_STATE [] Reachable.init

/-- Concrete paused state stored after start("T") at time 1 (session "s1")
followed by pause at time 6: five milliseconds accumulated, task kept,
session fields cleared. -/
def pausedDemoState : TimerState :=
  { isRunning := false
    isPaused := true
    taskId := some "T"
    taskTitle := "Task"
    currentSessionId := none
    sessionStartTime := none
    previousTotal := 5 }

/-- Remote store after that same start/pause pair: the one session record,
closed. -/
def pausedDemoRemote : List RemoteSession :=
  [{ id := "s1", taskId := "T", closed := true }]

/-- Counterexample to claim C9: the paused state reached by start("T") at
time 1 (session id "s1") followed by pause at time 6 is reachable, and in it
`taskId` is present while `currentSessionId` is absent, so the claimed
pairwise equivalence of the four conditions fails. -/
theorem claim_C9_counterexample :
    Reachable pausedDemoState pausedDemoRemote ∧
    ¬ ((pausedDemoState.taskId = none) ↔
        (pausedDemoState.currentSessionId = none)) := by
  refine ⟨?_, by decide⟩
  have h1 : Reachable
      { isRunning := true, isPaused := false, taskId := some "T",
        taskTitle := "Task", currentSessionId := some "s1",
        sessionStartTime := some 1, previousTotal := 0 }
      [{ id := "s1", taskId := "T", closed := false }] :=
    Reachable.step (some DEFAULT_SETTINGS)
      { create := Except.ok "s1", close := Except.ok () } 1
      (TimerOp.startTimer { taskId := "T", taskTitle := "Task", previousTotal := 0 })
      DEFAULT_TIMER_STATE [] Reachable.init (by decide)
  exact Reachable.step (some DEFAULT_SETTINGS)
    { create := Except.error "unused", close := Except.ok () } 6
    TimerOp.pauseTimer _ _ h1 (by decide)

/-- Claim C9 (amended): for all reachable states, `phase = idle` iff `taskId`
is absent, `currentSessionId` is absent iff `sessionStartTime` is absent, and
the phase is running iff `currentSessionId` is present. The original four-way
pairwise equivalence fails in every reachable paused state, where `taskId` is
present but `currentSessionId` and `sessionStartTime` are absent. -/
theorem claim_C9_amended (st : TimerState) (rs : List RemoteSession)
    (h : Reachable st rs) :
    ((st.isRunning = false ∧ st.isPaused = false) ↔ st.taskId = none) ∧
    (st.currentSessionId = none ↔ st.sessionStartTime = none) ∧
    (st.isRunning = true ↔ st.currentSessionId.isSome) := by
  obtain ⟨h1, h2, h3, h4, h5⟩ := reachable_timerStateInv st rs h
  refine ⟨h4.symm, ⟨?_, ?_⟩, ⟨h3, ?_⟩⟩
  · intro hn
    cases hs : st.sessionStartTime with
    | none => rfl
    | some t => rw [hn, hs] at h1; simp at h1
  · intro hn
    cases hs : st.currentSessionId with
    | none => rfl
    | some v => rw [hn, hs] at h1; simp at h1
  · intro hs
    rcases Bool.eq_false_or_eq_true st.isRunning with hb | hb
    · exact hb
    · have hnone := (h2 hb).1
      rw [hnone] at hs
      simp at hs

/-- Witness for the amended C9 at the reachable default state. -/
theorem claim_C9_witness :
    ((DEFAULT_TIMER_STATE.isRunning = false ∧
        DEFAULT_TIMER_STATE.isPaused = false) ↔
      DEFAULT_TIMER_STATE.taskId = none) ∧
    (DEFAULT_TIMER_STATE.currentSessionId = none ↔
      DEFAULT_TIMER_STATE.sessionStartTime = none) ∧
    (DEFAULT_TIMER_STATE.isRunning = true ↔
      DEFAULT_TIMER_STATE.currentSessionId.isSome) :=
  claim_C9_amended DEFAULT_TIMER_STATE [] Reachable.init

/-- Counterexample to claim C5: the public message interface accepts
START_TIMER while the phase is already running, and `handleStartTimer` never
closes the previously open session. Starting task "T" twice in a row reaches
a remote store with two simultaneously open session records for the same
task "T". -/
theorem claim_C5_counterexample :
    Reachable
      { isRunning := true, isPaused := false, taskId := some "T",
        taskTitle := "Task", currentSessionId := some "s2",
        sessionStartTime := some 5, previousTotal := 0 }
      [{ id := "s1", taskId := "T", closed := false },
       { id := "s2", taskId := "T", closed := false }] ∧
    (openSessions
        [{ id := "s1", taskId := "T", closed := false },
         { id := "s2", taskId := "T", closed := false }]).length = 2 ∧
    (∀ x ∈ openSessions
        [{ id := "s1", taskId := "T", closed := false },
         { id := "s2", taskId := "T", closed := false }], x.taskId = "T") := by
  refine ⟨?_, by decide, by decide⟩
  have h1 : Reachable
      { isRunning := true, isPaused := false, taskId := some "T",
        taskTitle := "Task", currentSessionId := some "s1",
        sessionStartTime := some 0, previousTotal := 0 }
      [{ id := "s1", taskId := "T", closed := false }] :=
    Reachable.step (some DEFAULT_SETTINGS)
      { create := Except.ok "s1", close := Except.ok () } 0
      (TimerOp.startTimer { taskId := "T", taskTitle := "Task", previousTotal := 0 })
      DEFAULT_TIMER_STATE [] Reachable.init (by decide)
  exact Reachable.step (some DEFAULT_SETTINGS)
    { create := Except.ok "s2", close := Except.ok () } 5
    (TimerOp.startTimer { taskId := "T", taskTitle := "Task", previousTotal := 0 })
    _ _ h1 (by decide)

/-- Claim C5 (amended): under sequential transition calls with a fixed,
present settings bundle, where start() is only invoked while the phase is
idle (the caller issues stop first when switching), the remote store never
holds two simultaneously open session records — at most one session is open
at any time, so in particular never two open records for the same task. -/
theorem claim_C5_amended (s : Settings) (st : TimerState)
    (rs : List RemoteSession) (h : GoodReachable s st rs) :
    (openSessions rs).length ≤ 1 ∧
    ∀ a ∈ openSessions rs, ∀ b ∈ openSessions rs, a = b := by
  have h2 := (goodReachable_inv s st rs h).2
  cases hsid : st.currentSessionId with
  | none =>
    simp only [RemoteInv, hsid] at h2
    simp [h2]
  | some sessionId =>
    simp only [RemoteInv, hsid] at h2
    obtain ⟨hne, t, hopen⟩ := h2
    rw [hopen]
    refine ⟨by simp, ?_⟩
    intro a ha b hb
    simp only [List.mem_singleton] at ha hb
    rw [ha, hb]

/-- Witness for the amended C5 at the initial disciplined trace. -/
theorem claim_C5_witness :
    (openSessions []).length ≤ 1 ∧
    ∀ a ∈ openSessions [], ∀ b ∈ openSessions [], a = b :=
  claim_C5_amended DEFAULT_SETTINGS DEFAULT_TIMER_STATE [] GoodReachable.init

/-- Claim C1: for every transition operation (start, pause, resume, stop),
if the remote session create/close call fails (throws), the persisted
TimerState after the failed call equals the TimerState before the call, the
remote store is untouched, and the caller observes the error. -/
theorem claim_C1_remote_failure_is_readonly (settings : Option Settings)
    (now : Int) (op : TimerOp) (st : TimerState) (rs : List RemoteSession)
    (e : String)
    (h : (step settings { create := Except.error e, close := Except.error e }
        now op st rs).attempted = true) :
    (step settings { create := Except.error e, close := Except.error e }
        now op st rs).persisted = st ∧
    (step settings { create := Except.error e, close := Except.error e }
        now op st rs).remote = rs ∧
    (step settings { create := Except.error e, close := Except.error e }
        now op st rs).resp = Except.error e := by
  cases op with
  | getState => exact Bool.noConfusion h
  | startTimer p =>
    cases settings with
    | none => exact Bool.noConfusion h
    | some s => exact ⟨rfl, rfl, rfl⟩
  | pauseTimer =>
    cases settings with
    | none => exact Bool.noConfusion h
    | some s =>
      cases hsid : st.currentSessionId with
      | none =>
        simp only [step, handlePauseTimer, hsid, StepResult.noop] at h
        exact Bool.noConfusion h
      | some sessionId =>
        by_cases hg : st.isRunning = false ∨ sessionId = ""
        · simp only [step, handlePauseTimer, hsid, if_pos hg,
            StepResult.noop] at h
          exact Bool.noConfusion h
        · simp [step, handlePauseTimer, hsid, if_neg hg]
  | resumeTimer =>
    cases settings with
    | none => exact Bool.noConfusion h
    | some s =>
      cases htid : st.taskId with
      | none =>
        simp only [step, handleResumeTimer, htid, StepResult.noop] at h
        exact Bool.noConfusion h
      | some taskId =>
        by_cases hg : st.isPaused = false ∨ taskId = ""
        · simp only [step, handleResumeTimer, htid, if_pos hg,
            StepResult.noop] at h
          exact Bool.noConfusion h
        · simp [step, handleResumeTimer, htid, if_neg hg]
  | stopTimer =>
    cases settings with
    | none => exact Bool.noConfusion h
    | some s =>
      cases hsid : st.currentSessionId with
      | none =>
        simp only [step, handleStopTimer, hsid] at h
        exact Bool.noConfusion h
      | some sessionId =>
        by_cases hg : st.isRunning = true ∧ sessionId ≠ ""
        · simp [step, handleStopTimer, hsid, if_pos hg]
        · simp only [step, handleStopTimer, hsid, if_neg hg] at h
          exact Bool.noConfusion h

/-- Witness for C1: a start call with configured settings whose remote
create fails leaves the default state and empty remote store untouched and
surfaces the error. -/
theorem claim_C1_witness :
    (step (some DEFAULT_SETTINGS)
        { create := Except.error "network down", close := Except.error "network down" }
        0 (TimerOp.startTimer { taskId := "T", taskTitle := "Task", previousTotal := 0 })
        DEFAULT_TIMER_STATE []).persisted = DEFAULT_TIMER_STATE ∧
    (step (some DEFAULT_SETTINGS)
        { create := Except.error "network down", close := Except.error "network down" }
        0 (TimerOp.startTimer { taskId := "T", taskTitle := "Task", previousTotal := 0 })
        DEFAULT_TIMER_STATE []).remote = [] ∧
    (step (some DEFAULT_SETTINGS)
        { create := Except.error "network down", close := Except.error "network down" }
        0 (TimerOp.startTimer { taskId := "T", taskTitle := "Task", previousTotal := 0 })
        DEFAULT_TIMER_STATE []).resp = Except.error "network down" :=
  claim_C1_remote_failure_is_readonly (some DEFAULT_SETTINGS) 0
    (TimerOp.startTimer { taskId := "T", taskTitle := "Task", previousTotal := 0 })
    DEFAULT_TIMER_STATE [] "network down" rfl

/-- Counterexample to claim C3: with a present settings bundle whose
credential and database ids are all empty (DEFAULT_SETTINGS), start does not
refuse — the remote create call is attempted, and when it succeeds a running
state is durably written and no error is surfaced. -/
theorem claim_C3_counterexample :
    (step (some DEFAULT_SETTINGS)
        { create := Except.ok "s1", close := Except.ok () } 0
        (TimerOp.startTimer { taskId := "T", taskTitle := "Task", previousTotal := 0 })
        DEFAULT_TIMER_STATE []).attempted = true ∧
    (step (some DEFAULT_SETTINGS)
        { create := Except.ok "s1", close := Except.ok () } 0
        (TimerOp.startTimer { taskId := "T", taskTitle := "Task", previousTotal := 0 })
        DEFAULT_TIMER_STATE []).persisted ≠ DEFAULT_TIMER_STATE := by
  exact ⟨rfl, by decide⟩

/-- Claim C3 (amended): the handlers check only that the settings bundle
exists, with per-operation behavior on a missing bundle — start throws the
configuration error with no remote call and no write; pause and resume
return the current state with no remote call, no write and no error; stop
performs no remote call but still durably writes the default state and
reports success. With a present bundle, start attempts the remote call
regardless of field contents: emptiness of the credential or database ids
is never checked by the background handlers. -/
theorem claim_C3_amended (s : Settings) (o : RemoteOracle) (now : Int)
    (p : StartTimerPayload) (st : TimerState) (rs : List RemoteSession) :
    step none o now (TimerOp.startTimer p) st rs =
      { resp := Except.error "Settings not configured", persisted := st,
        remote := rs, attempted := false } ∧
    step none o now TimerOp.pauseTimer st rs =
      { resp := Except.ok st, persisted := st, remote := rs,
        attempted := false } ∧
    step none o now TimerOp.resumeTimer st rs =
      { resp := Except.ok st, persisted := st, remote := rs,
        attempted := false } ∧
    step none o now TimerOp.stopTimer st rs =
      { resp := Except.ok DEFAULT_TIMER_STATE,
        persisted := DEFAULT_TIMER_STATE, remote := rs,
        attempted := false } ∧
    (step (some s) o now (TimerOp.startTimer p) st rs).attempted = true := by
  refine ⟨rfl, rfl, rfl, rfl, ?_⟩
  cases hc : o.create with
  | error e => simp only [step, handleStartTimer, hc]
  | ok sessionId => simp only [step, handleStartTimer, hc]

/-- Concrete running state whose session id is the empty string: its
`currentSessionId` and `sessionStartTime` are present in the TypeScript
sense (non-null), yet the pause guard treats the empty id as falsy. -/
def emptyIdRunningState : TimerState :=
  { isRunning := true
    isPaused := false
    taskId := some "T"
    taskTitle := "Task"
    currentSessionId := some ""
    sessionStartTime := some 5
    previousTotal := 0 }

/-- Counterexample to claim C4: in a running state with both session fields
present but an empty-string session id, pause at time 10 does not produce a
paused state with accumulated time grown by now - sessionStartTime — the JS
guard `!state.currentSessionId` treats the empty id as absent and returns
the running state unchanged. -/
theorem claim_C4_counterexample :
    emptyIdRunningState.isRunning = true ∧
    emptyIdRunningState.currentSessionId.isSome = true ∧
    emptyIdRunningState.sessionStartTime.isSome = true ∧
    (handlePauseTimer (some DEFAULT_SETTINGS)
        { create := Except.ok "x", close := Except.ok () } 10
        emptyIdRunningState []).persisted = emptyIdRunningState ∧
    (handlePauseTimer (some DEFAULT_SETTINGS)
        { create := Except.ok "x", close := Except.ok () } 10
        emptyIdRunningState []).persisted.isPaused = false := by
  decide

/-- Claim C4 (amended): for every running state whose `currentSessionId` is
a present, non-empty id and whose `sessionStartTime` is a present, non-zero
timestamp (the truthiness conditions the handler actually tests), with a
present settings bundle and a successful remote close, pause() persists the
paused state: running cleared, paused set, `previousTotal` grown by exactly
the completed interval now - sessionStartTime, and both session fields
cleared; the same state is resolved to the caller. -/
theorem claim_C4_amended (s : Settings) (o : RemoteOracle) (now : Int)
    (st : TimerState) (rs : List RemoteSession) (sessionId : String) (t : Int)
    (hrun : st.isRunning = true) (hsid : st.currentSessionId = some sessionId)
    (hne : sessionId ≠ "") (hst : st.sessionStartTime = some t) (ht : t ≠ 0)
    (hcl : o.close = Except.ok ()) :
    (handlePauseTimer (some s) o now st rs).persisted =
      { st with
          isRunning := false
          isPaused := true
          currentSessionId := none
          sessionStartTime := none
          previousTotal := st.previousTotal + (now - t) } ∧
    (handlePauseTimer (some s) o now st rs).resp =
      Except.ok (handlePauseTimer (some s) o now st rs).persisted := by
  have hg : ¬ (st.isRunning = false ∨ sessionId = "") := by
    rw [hrun]
    simp [hne]
  simp [handlePauseTimer, hsid, if_neg hg, hcl, hst, if_neg ht]

/-- Witness for the amended C4: pausing a concrete running state (session
"s1" started at time 2, prior total 3) at time 10 yields the paused state
with total 3 + 8. -/
theorem claim_C4_witness :
    (handlePauseTimer (some DEFAULT_SETTINGS)
        { create := Except.error "unused", close := Except.ok () } 10
        { isRunning := true, isPaused := false, taskId := some "T",
          taskTitle := "Task", currentSessionId := some "s1",
          sessionStartTime := some 2, previousTotal := 3 } []).persisted =
      { isRunning := false, isPaused := true, taskId := some "T",
        taskTitle := "Task", currentSessionId := none,
        sessionStartTime := none, previousTotal := 3 + (10 - 2) } ∧
    (handlePauseTimer (some DEFAULT_SETTINGS)
        { create := Except.error "unused", close := Except.ok () } 10
        { isRunning := true, isPaused := false, taskId := some "T",
          taskTitle := "Task", currentSessionId := some "s1",
          sessionStartTime := some 2, previousTotal := 3 } []).resp =
      Except.ok ((handlePauseTimer (some DEFAULT_SETTINGS)
        { create := Except.error "unused", close := Except.ok () } 10
        { isRunning := true, isPaused := false, taskId := some "T",
          taskTitle := "Task", currentSessionId := some "s1",
          sessionStartTime := some 2, previousTotal := 3 } []).persisted) :=
  claim_C4_amended DEFAULT_SETTINGS
    { create := Except.error "unused", close := Except.ok () } 10
    { isRunning := true, isPaused := false, taskId := some "T",
      taskTitle := "Task", currentSessionId := some "s1",
      sessionStartTime := some 2, previousTotal := 3 } [] "s1" 2
    rfl rfl (by decide) rfl (by decide) rfl

/-- Counterexample to claim C6: a configuration failure (no settings stored)
on a start call is caught by the listener and delivered through
`sendResponse`, so with no transport failure the caller's promise RESOLVES
with an error-descriptor object instead of rejecting. -/
theorem claim_C6_counterexample :
    sendMessage none (listenerResponse
      (step none { create := Except.ok "s1", close := Except.ok () } 0
        (TimerOp.startTimer { taskId := "T", taskTitle := "Task", previousTotal := 0 })
        DEFAULT_TIMER_STATE [])) =
      Except.ok (WireResponse.errDesc "Settings not configured") := rfl

/-- Claim C6 (amended): with no transport failure the caller's promise
always resolves — with the new TimerState snapshot when the handler
succeeds, and with an error-descriptor object when the handler throws a
remote or configuration error; the promise rejects exactly on transport
failures. -/
theorem claim_C6_amended (settings : Option Settings) (o : RemoteOracle)
    (now : Int) (op : TimerOp) (st : TimerState) (rs : List RemoteSession) :
    (∀ st', (step settings o now op st rs).resp = Except.ok st' →
      sendMessage none (listenerResponse (step settings o now op st rs)) =
        Except.ok (WireResponse.state st')) ∧
    (∀ e, (step settings o now op st rs).resp = Except.error e →
      sendMessage none (listenerResponse (step settings o now op st rs)) =
        Except.ok (WireResponse.errDesc e)) ∧
    (∀ e w, sendMessage (some e) w = Except.error e) := by
  refine ⟨?_, ?_, fun e w => rfl⟩
  · intro st' hok
    simp [sendMessage, listenerResponse, hok]
  · intro e herr
    simp [sendMessage, listenerResponse, herr]

/-- Witness for the amended C6: the configuration failure of a start call
without settings resolves as an error descriptor. -/
theorem claim_C6_witness :
    sendMessage none (listenerResponse
      (step none { create := Except.error "x", close := Except.error "x" } 0
        (TimerOp.startTimer { taskId := "T", taskTitle := "Task", previousTotal := 0 })
        DEFAULT_TIMER_STATE [])) =
      Except.ok (WireResponse.errDesc "Settings not configured") :=
  (claim_C6_amended none
    { create := Except.error "x", close := Except.error "x" } 0
    (TimerOp.startTimer { taskId := "T", taskTitle := "Task", previousTotal := 0 })
    DEFAULT_TIMER_STATE []).2.1 "Settings not configured" rfl

/-- Claim C7: stopping when the persisted state is already the empty default
leaves the persisted TimerState unchanged (the saved value is the same
default), performs no remote call and resolves with the default state;
moreover any stop call that resolves successfully persists exactly the
default state, so a repeated stop changes nothing — stop is idempotent. -/
theorem claim_C7_stop_idempotent (settings : Option Settings)
    (o : RemoteOracle) (now : Int) (st : TimerState)
    (rs : List RemoteSession) :
    step settings o now TimerOp.stopTimer DEFAULT_TIMER_STATE rs =
      { resp := Except.ok DEFAULT_TIMER_STATE,
        persisted := DEFAULT_TIMER_STATE, remote := rs,
        attempted := false } ∧
    (∀ v, (step settings o now TimerOp.stopTimer st rs).resp = Except.ok v →
      (step settings o now TimerOp.stopTimer st rs).persisted =
        DEFAULT_TIMER_STATE ∧ v = DEFAULT_TIMER_STATE) := by
  constructor
  · cases settings with
    | none => rfl
    | some s => rfl
  · intro v hok
    cases settings with
    | none =>
      simp only [step, handleStopTimer] at hok
      injection hok with hv
      exact ⟨rfl, hv.symm⟩
    | some s =>
      cases hsid : st.currentSessionId with
      | none =>
        simp only [step, handleStopTimer, hsid] at hok
        injection hok with hv
        refine ⟨?_, hv.symm⟩
        simp [step, handleStopTimer, hsid]
      | some sessionId =>
        by_cases hg : st.isRunning = true ∧ sessionId ≠ ""
        · cases hcl : o.close with
          | error e =>
            simp only [step, handleStopTimer, hsid, if_pos hg, hcl] at hok
            exact Except.noConfusion hok
          | ok u =>
            simp only [step, handleStopTimer, hsid, if_pos hg, hcl] at hok
            injection hok with hv
            refine ⟨?_, hv.symm⟩
            simp [step, handleStopTimer, hsid, if_pos hg, hcl]
        · simp only [step, handleStopTimer, hsid, if_neg hg] at hok
          injection hok with hv
          refine ⟨?_, hv.symm⟩
          simp [step, handleStopTimer, hsid, if_neg hg]

/-- Witness for C7: stopping from the default state with configured settings
is a pure no-op on storage and remote, and a successful stop lands on the
default state. -/
theorem claim_C7_witness :
    step (some DEFAULT_SETTINGS)
        { create := Except.ok "s1", close := Except.ok () } 0
        TimerOp.stopTimer DEFAULT_TIMER_STATE [] =
      { resp := Except.ok DEFAULT_TIMER_STATE,
        persisted := DEFAULT_TIMER_STATE, remote := [],
        attempted := false } ∧
    ((step (some DEFAULT_SETTINGS)
        { create := Except.ok "s1", close := Except.ok () } 0
        TimerOp.stopTimer DEFAULT_TIMER_STATE []).persisted =
      DEFAULT_TIMER_STATE ∧ DEFAULT_TIMER_STATE = DEFAULT_TIMER_STATE) :=
  ⟨(claim_C7_stop_idempotent (some DEFAULT_SETTINGS)
      { create := Except.ok "s1", close := Except.ok () } 0
      DEFAULT_TIMER_STATE []).1,
   (claim_C7_stop_idempotent (some DEFAULT_SETTINGS)
      { create := Except.ok "s1", close := Except.ok () } 0
      DEFAULT_TIMER_STATE []).2 DEFAULT_TIMER_STATE rfl⟩

/-- Claim C8: pausing a machine whose phase is idle (not running, not
paused) returns the current state unchanged with no error, makes no remote
call, performs no durable write, and leaves the remote store untouched. -/
theorem claim_C8_pause_idle_noop (settings : Option Settings)
    (o : RemoteOracle) (now : Int) (st : TimerState)
    (rs : List RemoteSession) (hrun : st.isRunning = false)
    (_hpau : st.isPaused = false) :
    step settings o now TimerOp.pauseTimer st rs =
      { resp := Except.ok st, persisted := st, remote := rs,
        attempted := false } := by
  cases settings with
  | none => rfl
  | some s =>
    cases hsid : st.currentSessionId with
    | none =>
      simp only [step, handlePauseTimer, hsid]
      rfl
    | some sessionId =>
      have hg : st.isRunning = false ∨ sessionId = "" := Or.inl hrun
      simp only [step, handlePauseTimer, hsid, if_pos hg]
      rfl

/-- Witness for C8: pausing the idle default state is a no-op. -/
theorem claim_C8_witness :
    step (some DEFAULT_SETTINGS)
        { create := Except.ok "s1", close := Except.ok () } 7
        TimerOp.pauseTimer DEFAULT_TIMER_STATE [] =
      { resp := Except.ok DEFAULT_TIMER_STATE,
        persisted := DEFAULT_TIMER_STATE, remote := [],
        attempted := false } :=
  claim_C8_pause_idle_noop (some DEFAULT_SETTINGS)
    { create := Except.ok "s1", close := Except.ok () } 7
    DEFAULT_TIMER_STATE [] rfl rfl

theorem two_le_padZero_length (num : Nat) : 2 ≤ (padZero num).length := by
  have h1 : (padZero num).length =
      (2 - (Nat.repr num).length) + (Nat.repr num).length := by
    simp [padZero, padStart, String.length_append, String.length_mk,
      List.length_replicate]
  omega

/-- Claim C10: for every non-negative integer millisecond count ms,
formatTime ms is the string padZero(h) ++ ":" ++ padZero(m) ++ ":" ++
padZero(s) where m and s lie in 0..59, h*3600 + m*60 + s equals
floor(ms / 1000), and each component is zero-padded to length at least
two. -/
theorem claim_C10_formatTime_shape (ms : Nat) :
    formatTime ms =
      padZero (ms / 1000 / 3600) ++ ":" ++ padZero (ms / 1000 % 3600 / 60) ++
        ":" ++ padZero (ms / 1000 % 60) ∧
    ms / 1000 % 3600 / 60 < 60 ∧
    ms / 1000 % 60 < 60 ∧
    (ms / 1000 / 3600) * 3600 + (ms / 1000 % 3600 / 60) * 60 +
        ms / 1000 % 60 = ms / 1000 ∧
    2 ≤ (padZero (ms / 1000 / 3600)).length ∧
    2 ≤ (padZero (ms / 1000 % 3600 / 60)).length ∧
    2 ≤ (padZero (ms / 1000 % 60)).length := by
  refine ⟨rfl, ?_, ?_, ?_, two_le_padZero_length _, two_le_padZero_length _,
    two_le_padZero_length _⟩
  · omega
  · omega
  · omega
